import Mathlib

/-
Verification of the rendersync port-arbitration and process-supervision core.

The definitions below are a shallow embedding of the Python source:
  - src/rendersync/main.py            (port manager: find_available_port,
                                       is_port_available, kill_processes_on_port,
                                       secure_port_for_render_farm, the startup hook)
  - src/rendersync/modules/utilities.py  (ProcessManager: check_load_timeout,
                                       terminate_all_processes, _terminate_process)
  - src/rendersync/modules/comfyui.py and ollama.py (start/stop operations)
  - src/rendersync/modules/network.py (inspect_port)

OS state (the process table and the sockets bound by live processes) is modelled
explicitly.  A closed-world assumption links the two: a TCP port counts as
available exactly when no live process in the table holds a connection on it,
which is the nominal relationship between psutil's view and the bind probe.
Wall-clock effects (sleeps, graceful-exit latencies) are modelled by giving each
process the time it needs to exit after a graceful stop signal.
-/

namespace RenderSync

/-- Model of one OS process as the source observes it through psutil.
`ports` are the local ports of its connections; `running` mirrors
"exists and is running"; `accessDenied` models psutil.AccessDenied raised when
inspecting the process (connections()/info); `termDenied` models
psutil.AccessDenied raised by terminate(); `termExit` is the number of seconds
the process needs to exit after a graceful terminate() signal (none = it
ignores the signal); `killExit` is whether a forceful kill() removes it. -/
structure OSProc where
  pid : Nat
  name : String
  cmdline : List String
  ports : List Nat
  running : Bool
  accessDenied : Bool
  termDenied : Bool
  termExit : Option Nat
  killExit : Bool
deriving DecidableEq

/-- OS world state for the port manager in main.py: the process table plus a
log of the PIDs that have been signalled by kill_processes_on_port. -/
structure World where
  procs : List OSProc
  killedLog : List Nat
deriving DecidableEq

/-- Whether a process currently holds a connection on the given port
(the condition conn.laddr.port == port checked inside kill_processes_on_port,
restricted to live processes). -/
def occupies (pr : OSProc) (port : Nat) : Bool :=
  pr.running && pr.ports.contains port

/-- Embedding of is_port_available (main.py): under the closed-world OS model,
the exclusive bind on a port succeeds exactly when no live process holds a
connection on that port. -/
def is_port_available (w : World) (port : Nat) : Bool :=
  !(w.procs.any (fun pr => occupies pr port))

/-- Outcome of the OS-level bind attempt made by the probe in is_port_available
(main.py): either the bind succeeds or an OSError/socket.error is raised. -/
inductive BindOutcome where
  | success
  | osError
deriving DecidableEq

/-- Socket state of the probing process: the ports its own sockets hold. -/
structure SockState where
  boundPorts : List Nat
deriving DecidableEq

/-- Effect of socket.bind on the probe's socket state. -/
def bindSocket (st : SockState) (port : Nat) : SockState :=
  { boundPorts := port :: st.boundPorts }

/-- Effect of closing the probe socket (the end of the with-block). -/
def closeSocket (st : SockState) (port : Nat) : SockState :=
  { boundPorts := st.boundPorts.erase port }

/-- Socket-level embedding of is_port_available (main.py, lines 117-125):
attempt the bind; on success the with-block closes the socket and True is
returned; on OSError/socket.error the function returns False instead of
propagating the exception. -/
def is_port_available_probe (bindResult : Nat → BindOutcome) (st : SockState)
    (port : Nat) : Bool × SockState :=
  match bindResult port with
  | BindOutcome.success => (true, closeSocket (bindSocket st port) port)
  | BindOutcome.osError => (false, st)

/-- Grace wait used by kill_processes_on_port (main.py): terminate() is
followed immediately by the is_running() check ("no delay needed"), i.e. a
zero-second grace period. -/
def KILL_PROCESSES_ON_PORT_GRACE_SECONDS : Nat := 0

/-- Grace wait used by ProcessManager._terminate_process (utilities.py):
time.sleep(1) between terminate() and the is_running() check. -/
def TERMINATE_PROCESS_GRACE_SECONDS : Nat := 1

/-- Grace wait used by stop_all_comfyui_processes / stop_all_ollama_processes
(comfyui.py, ollama.py): proc.wait(timeout=3) between terminate() and kill(). -/
def STOP_ALL_PROCESSES_GRACE_SECONDS : Nat := 3

/-- Which phase of the terminate-then-kill pattern removed the process. -/
inductive TermMethod where
  | graceful
  | forced
deriving DecidableEq

/-- Shared shape of every termination site in the source: send terminate(),
wait for the site's grace period, and send kill() only if the process is still
alive.  Returns the phase that applied and whether the process is still running
afterwards. -/
def two_phase_outcome (grace : Nat) (termExit : Option Nat) (killExit : Bool) :
    TermMethod × Bool :=
  match termExit with
  | some t =>
      if t ≤ grace then (TermMethod.graceful, false)
      else (TermMethod.forced, !killExit)
  | none => (TermMethod.forced, !killExit)

/-- Preferred ports list RENDERSYNC_PORTS from main.py. -/
def RENDERSYNC_PORTS : List Nat :=
  [8080, 8000, 8081, 8082, 3000, 5000, 9000, 8888, 8001, 8083, 7000]

/-- DEFAULT_PORT from main.py. -/
def DEFAULT_PORT : Nat := 8080

/-- Candidate list built at the top of find_available_port (main.py): the start
port is moved to the front of RENDERSYNC_PORTS if it is in the list, otherwise
prepended to the whole list. -/
def ports_to_try (start_port : Nat) : List Nat :=
  if RENDERSYNC_PORTS.contains start_port then
    start_port :: RENDERSYNC_PORTS.filter (fun p => p != start_port)
  else
    start_port :: RENDERSYNC_PORTS

/-- Embedding of find_available_port (main.py, lines 92-114): first the
preferred candidates, then the fallback sweep over range(8000, 9000); the
RuntimeError raised on exhaustion becomes an error value.  The World component
is returned unchanged: the body only probes, it never signals a process. -/
def find_available_port (w : World) (start : Option Nat) : Except String Nat × World :=
  let sp := start.getD DEFAULT_PORT
  match (ports_to_try sp).find? (is_port_available w) with
  | some p => (Except.ok p, w)
  | none =>
      match (List.range' 8000 1000).find? (is_port_available w) with
      | some p => (Except.ok p, w)
      | none => (Except.error "No available ports found in range 8000-8999", w)

/-- Condition under which the loop body of kill_processes_on_port signals a
process: it is live, neither connections() nor terminate() raises
AccessDenied, and it has a connection on the target port. -/
def shouldKill (port : Nat) (pr : OSProc) : Bool :=
  pr.running && !pr.accessDenied && !pr.termDenied && pr.ports.contains port

/-- Effect of the terminate-then-immediate-kill sequence in
kill_processes_on_port on one process (zero-second grace period). -/
def killProcOnPort (pr : OSProc) : OSProc :=
  { pr with running :=
      (two_phase_outcome KILL_PROCESSES_ON_PORT_GRACE_SECONDS pr.termExit pr.killExit).2 }

/-- Embedding of kill_processes_on_port (main.py, lines 128-159): every live,
accessible process with a connection on the port is signalled (terminate, then
kill if still running) and counted; AccessDenied / vanished processes are
skipped.  The signalled PIDs are appended to the world's kill log. -/
def kill_processes_on_port (w : World) (port : Nat) : Nat × World :=
  let targets := w.procs.filter (shouldKill port)
  (targets.length,
   { procs := w.procs.map (fun pr => if shouldKill port pr then killProcOnPort pr else pr),
     killedLog := w.killedLog ++ targets.map OSProc.pid })

/-- Body of secure_port_for_render_farm once the target port is known
(main.py, lines 162-178): kill the occupants of the port, re-probe, and on
failure fall back to find_available_port(port + 1). -/
def secureKnownPort (w : World) (p : Nat) : Except String Nat × World :=
  let kw := kill_processes_on_port w p
  if is_port_available kw.2 p then (Except.ok p, kw.2)
  else find_available_port kw.2 (some (p + 1))

/-- Embedding of secure_port_for_render_farm (main.py, lines 162-178): with no
port argument the target is first chosen by find_available_port (whose
RuntimeError propagates); then the eviction pass runs on the target port. -/
def secure_port_for_render_farm (w : World) (port : Option Nat) : Except String Nat × World :=
  match port with
  | none =>
      match find_available_port w none with
      | (Except.ok p, w1) => secureKnownPort w1 p
      | (Except.error e, w1) => (Except.error e, w1)
  | some p => secureKnownPort w p

/-- State of the global ProcessManager (utilities.py): explicitly tracked
spawned processes, the child terminal processes found by
get_spawned_processes, the daemon start time and the load-timeout bound. -/
structure PMState where
  tracked : List OSProc
  spawnedTerminals : List OSProc
  startTime : Nat
  maxLoadTime : Nat
deriving DecidableEq

/-- Embedding of ProcessManager._terminate_process (utilities.py, lines
261-276): terminate(), sleep one second, then kill() if still running. -/
def terminate_process_registry (pr : OSProc) : OSProc :=
  { pr with running :=
      (two_phase_outcome TERMINATE_PROCESS_GRACE_SECONDS pr.termExit pr.killExit).2 }

/-- Embedding of ProcessManager.terminate_all_processes (utilities.py, lines
232-259): every still-running tracked process is terminated and counted, then
every running spawned terminal child that psutil can access is terminated and
counted. -/
def terminate_all_processes (st : PMState) : Nat × PMState :=
  let trackedTargets := st.tracked.filter (fun pr => pr.running)
  let spawnTargets := st.spawnedTerminals.filter (fun pr => pr.running && !pr.accessDenied)
  (trackedTargets.length + spawnTargets.length,
   { st with
     tracked := st.tracked.map (fun pr =>
       if pr.running then terminate_process_registry pr else pr),
     spawnedTerminals := st.spawnedTerminals.map (fun pr =>
       if pr.running && !pr.accessDenied then terminate_process_registry pr else pr) })

/-- Embedding of ProcessManager.check_load_timeout (utilities.py, lines
222-230): compute the elapsed time since start; when it exceeds max_load_time,
call terminate_all_processes and return True, otherwise return False. -/
def check_load_timeout (st : PMState) (now : Nat) : Bool × PMState :=
  let elapsed := now - st.startTime
  if st.maxLoadTime < elapsed then (true, (terminate_all_processes st).2)
  else (false, st)

/-- Observable outcome of the startup hook in main.py. -/
inductive StartupOutcome where
  | securedAndReady (port : Nat)
  | continuedWithDefault
  | abortedOnTimeout
deriving DecidableEq

/-- Embedding of the startup hook in main.py: secure_port_for_render_farm is
wrapped in a try/except that catches every exception and continues with the
default port; afterwards check_application_timeout (check_load_timeout on the
global manager) is consulted and startup returns early when it reports a
breach. -/
def startup (w : World) (pm : PMState) (now : Nat) : StartupOutcome × World × PMState :=
  let sp := secure_port_for_render_farm w none
  let secured : Option Nat :=
    match sp.1 with
    | Except.ok p => some p
    | Except.error _ => none
  let ct := check_load_timeout pm now
  if ct.1 then (StartupOutcome.abortedOnTimeout, sp.2, ct.2)
  else
    match secured with
    | some p => (StartupOutcome.securedAndReady p, sp.2, ct.2)
    | none => (StartupOutcome.continuedWithDefault, sp.2, ct.2)

/-- Python's str.lower() applied characterwise (the source lowercases names and
command lines before matching). -/
def lowerStr (s : String) : String :=
  String.mk (s.data.map Char.toLower)

/-- Python's substring containment test (the expression "app in text"),
expressed on the character lists of the two strings. -/
def strContains (s pat : String) : Bool :=
  decide (List.IsInfix pat.data s.data)

/-- Name heuristic of stop_all_comfyui_processes / stop_all_ollama_processes:
the application tag occurs in the lowercased process name, or the command line
is a non-empty list and the tag occurs in some lowercased argument. -/
def nameMatches (app : String) (pr : OSProc) : Bool :=
  strContains (lowerStr pr.name) app ||
    (!pr.cmdline.isEmpty && pr.cmdline.any (fun a => strContains (lowerStr a) app))

/-- One entry of the stopped_processes list built by the batch stop loops. -/
structure StoppedEntry where
  pid : Nat
  name : String
  method : String
deriving DecidableEq

/-- Embedding of the per-process loop shared by stop_all_comfyui_processes
(comfyui.py, lines 559-641) and stop_all_ollama_processes (ollama.py, lines
492-585); processed front to back.  A process whose info fetch raises
AccessDenied is skipped silently; a matching process that is already gone is
recorded as already_terminated; AccessDenied from terminate() is collected
into the errors list and the loop continues; otherwise terminate() is sent,
wait(timeout=3) decides between the terminate and kill methods.  Returns the
stopped entries, the error strings, and the updated process table. -/
def stopScan (app : String) : List OSProc → List StoppedEntry × List String × List OSProc
  | [] => ([], [], [])
  | pr :: rest =>
      let r := stopScan app rest
      if pr.accessDenied then (r.1, r.2.1, pr :: r.2.2)
      else if nameMatches app pr then
        if !pr.running then
          (⟨pr.pid, lowerStr pr.name, "already_terminated"⟩ :: r.1, r.2.1, pr :: r.2.2)
        else if pr.termDenied then
          (r.1,
           ("Access denied for process " ++ Nat.repr pr.pid ++ " (" ++ lowerStr pr.name ++ ")") :: r.2.1,
           pr :: r.2.2)
        else
          (⟨pr.pid, lowerStr pr.name,
             if (two_phase_outcome STOP_ALL_PROCESSES_GRACE_SECONDS pr.termExit pr.killExit).1
                 = TermMethod.graceful
             then "terminate" else "kill"⟩ :: r.1,
           r.2.1,
           { pr with running :=
               (two_phase_outcome STOP_ALL_PROCESSES_GRACE_SECONDS pr.termExit pr.killExit).2 }
             :: r.2.2)
      else (r.1, r.2.1, pr :: r.2.2)

/-- Result dictionary of the batch stop operations. -/
structure StopAllResult where
  success : Bool
  stopped_processes : List StoppedEntry
  total_stopped : Nat
  errors : List String
deriving DecidableEq

/-- Embedding of ComfyUIManager.stop_all_comfyui_processes (comfyui.py): run
the scan with the comfyui tag and package the result dictionary. -/
def stop_all_comfyui_processes (procs : List OSProc) : StopAllResult × List OSProc :=
  let r := stopScan "comfyui" procs
  ({ success := true, stopped_processes := r.1, total_stopped := r.1.length,
     errors := r.2.1 }, r.2.2)

/-- Embedding of OllamaManager.stop_all_ollama_processes (ollama.py): the same
scan with the ollama tag.  The extra cleanup of the manager's own spawned
handle after the loop does not touch the result dictionary and is omitted. -/
def stop_all_ollama_processes (procs : List OSProc) : StopAllResult × List OSProc :=
  let r := stopScan "ollama" procs
  ({ success := true, stopped_processes := r.1, total_stopped := r.1.length,
     errors := r.2.1 }, r.2.2)

/-- Result dictionary of the start operations (already_running and pid keys
are present only on the paths that set them). -/
structure StartOutcome where
  success : Bool
  already_running : Option Bool
  pid : Option Nat
  error : Option String
deriving DecidableEq

/-- Embedding of ComfyUIManager.start_comfyui_windows (comfyui.py, lines
711-792).  Environment inputs: the pid found by find_comfyui_process, the path
found by find_comfyui_executable, and the pid the spawn would produce.  The
second component is the list of processes spawned by the call. -/
def start_comfyui_windows (foundPid : Option Nat) (exePath : Option String)
    (spawnPid : Nat) : StartOutcome × List Nat :=
  match foundPid with
  | some pid =>
      ({ success := true, already_running := some true, pid := some pid, error := none }, [])
  | none =>
      match exePath with
      | none =>
          ({ success := false, already_running := none, pid := none,
             error := some "ComfyUI executable not found. Please install ComfyUI first." }, [])
      | some _ =>
          ({ success := true, already_running := some false, pid := some spawnPid,
             error := none }, [spawnPid])

/-- Embedding of OllamaManager.start_ollama_windows (ollama.py, lines
587-686).  Environment inputs: whether is_ollama_responding succeeds, the pid
found by find_ollama_process, the path found by shutil.which, and the pid the
spawn would produce. -/
def start_ollama_windows (responding : Bool) (foundPid : Option Nat)
    (ollamaPath : Option String) (spawnPid : Nat) : StartOutcome × List Nat :=
  if responding then
    ({ success := true, already_running := some true, pid := foundPid, error := none }, [])
  else
    match ollamaPath with
    | none =>
        ({ success := false, already_running := none, pid := none,
           error := some "Ollama not found in PATH. Please install Ollama first." }, [])
    | some _ =>
        ({ success := true, already_running := some false, pid := some spawnPid,
           error := none }, [spawnPid])

/-- Environment of inspect_port (network.py): results of the helper probes for
each port.  The process lookup may return none even for a listening port. -/
structure NetProbeEnv where
  portOpen : Int → Bool
  portListening : Int → Bool
  processOnPort : Int → Option String
  connInfo : Int → Option String
  netConns : Int → List String

/-- Result dictionary of inspect_port in the non-error case. -/
structure PortReport where
  port : Int
  is_open : Bool
  is_listening : Bool
  process_info : Option String
  connection_info : Option String
  network_connections : List String
deriving DecidableEq

/-- Return value of inspect_port: either a dictionary with an error key or the
full report dictionary.  Both are ordinary return values; the source catches
ValueError and every other exception internally, so the function never
raises. -/
inductive InspectOutcome where
  | err (msg : String)
  | ok (report : PortReport)
deriving DecidableEq

/-- Embedding of inspect_port (network.py, lines 572-609).  The input is the
result of int(port): none models a value that is not convertible to an
integer (the ValueError path).  process_info is filled in only when the port
is listening. -/
def inspect_port (env : NetProbeEnv) (input : Option Int) : InspectOutcome :=
  match input with
  | none => InspectOutcome.err "Invalid port number"
  | some p =>
      if 1 ≤ p ∧ p ≤ 65535 then
        InspectOutcome.ok
          { port := p
            is_open := env.portOpen p
            is_listening := env.portListening p
            process_info := if env.portListening p then env.processOnPort p else none
            connection_info := env.connInfo p
            network_connections := env.netConns p }
      else InspectOutcome.err "Port must be between 1 and 65535"

/-- Candidate order demanded by the specification (section 4.4, step 1),
written from the spec's words: the requested port moved to the front of the
preference list when present (the remaining entries keeping their original
order), otherwise prepended, followed by the fallback range swept ascending.
Used only to compare the source's search order against the spec. -/
def searchOrderSpec (requested : Nat) (preferenceList : List Nat)
    (fallbackLo fallbackLen : Nat) : List Nat :=
  (if preferenceList.contains requested then requested :: preferenceList.erase requested
   else requested :: preferenceList) ++ List.range' fallbackLo fallbackLen

/-
Theorems
-/

/-- C9: the availability probe returns true exactly when the exclusive bind on
the port succeeds, releases the bound socket before returning (the probe's
socket state is unchanged), and on an OS-level socket error it returns false
instead of raising. -/
theorem c9_probe_bind_iff_released_fail_closed :
    ∀ (bindResult : Nat → BindOutcome) (st : SockState) (port : Nat),
      ((is_port_available_probe bindResult st port).1 = true
          ↔ bindResult port = BindOutcome.success)
      ∧ (is_port_available_probe bindResult st port).2 = st := by
  intro br st p
  cases h : br p <;>
    simp [is_port_available_probe, h, closeSocket, bindSocket]

/-- C10: inspect_port always returns a structured dictionary; non-convertible
input or a port outside 1..65535 yields an error dictionary, and otherwise a
full report is returned whose process_info is populated only when the port is
listening. -/
theorem c10_inspect_port_total_structured :
    ∀ (env : NetProbeEnv) (input : Option Int),
      (input = none → inspect_port env input = InspectOutcome.err "Invalid port number")
      ∧ (∀ p, input = some p → ¬(1 ≤ p ∧ p ≤ 65535) →
          inspect_port env input = InspectOutcome.err "Port must be between 1 and 65535")
      ∧ (∀ p, input = some p → 1 ≤ p → p ≤ 65535 →
          inspect_port env input = InspectOutcome.ok
            { port := p
              is_open := env.portOpen p
              is_listening := env.portListening p
              process_info := if env.portListening p then env.processOnPort p else none
              connection_info := env.connInfo p
              network_connections := env.netConns p })
      ∧ (∀ p r, inspect_port env (some p) = InspectOutcome.ok r →
          r.is_listening = false → r.process_info = none) := by
  intro env input
  refine ⟨?_, ?_, ?_, ?_⟩
  · intro h; subst h; rfl
  · intro p hp hrange; subst hp
    simp only [inspect_port]
    rw [if_neg hrange]
  · intro p hp h1 h2; subst hp
    simp only [inspect_port]
    rw [if_pos (And.intro h1 h2)]
  · intro p r h hlist
    by_cases hc : 1 ≤ p ∧ p ≤ 65535
    · simp only [inspect_port, if_pos hc, InspectOutcome.ok.injEq] at h
      subst h
      simp only at hlist
      simp [hlist]
    · simp only [inspect_port, if_neg hc] at h
      exact absurd h (by simp)

/-- Concrete probe environment used by witnesses: nothing open, nothing
listening. -/
def quietNet : NetProbeEnv :=
  { portOpen := fun _ => false
    portListening := fun _ => false
    processOnPort := fun _ => none
    connInfo := fun _ => none
    netConns := fun _ => [] }

/-- Witness for C10 at port 80 in the quiet environment. -/
theorem c10_witness :
    inspect_port quietNet (some 80) = InspectOutcome.ok
      { port := 80
        is_open := quietNet.portOpen 80
        is_listening := quietNet.portListening 80
        process_info := if quietNet.portListening 80 then quietNet.processOnPort 80 else none
        connection_info := quietNet.connInfo 80
        network_connections := quietNet.netConns 80 } :=
  (c10_inspect_port_total_structured quietNet (some 80)).2.2.1 80 rfl
    (by norm_num) (by norm_num)

/-- C7: start is idempotent when the application is detected running (it
reports already_running with the discovered pid and spawns nothing), and when
no executable is discoverable it returns the structured executable-not-found
result without spawning.  Holds for both application managers. -/
theorem c7_start_idempotent_and_guarded :
    ∀ (foundPid : Option Nat) (exePath : Option String) (spawnPid : Nat)
      (responding : Bool) (opid : Option Nat) (opath : Option String) (ospawn : Nat),
      (∀ pid, foundPid = some pid →
        (start_comfyui_windows foundPid exePath spawnPid).1.already_running = some true
        ∧ (start_comfyui_windows foundPid exePath spawnPid).1.pid = some pid
        ∧ (start_comfyui_windows foundPid exePath spawnPid).2 = [])
      ∧ (foundPid = none → exePath = none →
        (start_comfyui_windows foundPid exePath spawnPid).1.success = false
        ∧ (start_comfyui_windows foundPid exePath spawnPid).1.error
            = some "ComfyUI executable not found. Please install ComfyUI first."
        ∧ (start_comfyui_windows foundPid exePath spawnPid).2 = [])
      ∧ (responding = true →
        (start_ollama_windows responding opid opath ospawn).1.already_running = some true
        ∧ (start_ollama_windows responding opid opath ospawn).1.pid = opid
        ∧ (start_ollama_windows responding opid opath ospawn).2 = [])
      ∧ (responding = false → opath = none →
        (start_ollama_windows responding opid opath ospawn).1.success = false
        ∧ (start_ollama_windows responding opid opath ospawn).1.error
            = some "Ollama not found in PATH. Please install Ollama first."
        ∧ (start_ollama_windows responding opid opath ospawn).2 = []) := by
  intro foundPid exePath spawnPid responding opid opath ospawn
  refine ⟨?_, ?_, ?_, ?_⟩
  · intro pid h; subst h; exact ⟨rfl, rfl, rfl⟩
  · intro h1 h2; subst h1; subst h2; exact ⟨rfl, rfl, rfl⟩
  · intro h; subst h; exact ⟨rfl, rfl, rfl⟩
  · intro h1 h2; subst h1; subst h2; exact ⟨rfl, rfl, rfl⟩

/-- Witness for C7: a ComfyUI instance already running under pid 42. -/
theorem c7_witness :
    (start_comfyui_windows (some 42) none 0).1.already_running = some true
    ∧ (start_comfyui_windows (some 42) none 0).1.pid = some 42
    ∧ (start_comfyui_windows (some 42) none 0).2 = [] :=
  (c7_start_idempotent_and_guarded (some 42) none 0 true none none 0).1 42 rfl

/-- C2 counterexample: the grace-period bounds differ between call sites, and
on the same process (one that exits two seconds after a graceful stop) the
port-eviction path force-kills while the batch-stop path stops it gracefully.
This refutes the claim that the same grace-period bound is used identically at
every termination site. -/
theorem c2_counterexample :
    KILL_PROCESSES_ON_PORT_GRACE_SECONDS ≠ TERMINATE_PROCESS_GRACE_SECONDS
    ∧ TERMINATE_PROCESS_GRACE_SECONDS ≠ STOP_ALL_PROCESSES_GRACE_SECONDS
    ∧ two_phase_outcome KILL_PROCESSES_ON_PORT_GRACE_SECONDS (some 2) true
        = (TermMethod.forced, false)
    ∧ two_phase_outcome STOP_ALL_PROCESSES_GRACE_SECONDS (some 2) true
        = (TermMethod.graceful, false) := by
  decide

/-- C2 (amended): every termination site follows the terminate-then-kill
pattern (a forceful kill is sent only when the process is still alive after
the site's grace wait), but the grace bounds diverge: zero seconds in the
port-conflict eviction, one second in the registry's terminate helper, three
seconds in the application batch stops. -/
theorem c2_two_phase_with_divergent_grace :
    ∀ (te : Option Nat) (ke : Bool) (pr : OSProc),
      ((two_phase_outcome KILL_PROCESSES_ON_PORT_GRACE_SECONDS te ke).1
          = TermMethod.graceful ↔ te = some 0)
      ∧ ((two_phase_outcome TERMINATE_PROCESS_GRACE_SECONDS te ke).1
          = TermMethod.graceful ↔ ∃ t, te = some t ∧ t ≤ 1)
      ∧ ((two_phase_outcome STOP_ALL_PROCESSES_GRACE_SECONDS te ke).1
          = TermMethod.graceful ↔ ∃ t, te = some t ∧ t ≤ 3)
      ∧ (∀ g, (two_phase_outcome g te ke).1 = TermMethod.forced →
          (two_phase_outcome g te ke).2 = !ke)
      ∧ (∀ g, (two_phase_outcome g te ke).1 = TermMethod.graceful →
          (two_phase_outcome g te ke).2 = false)
      ∧ (killProcOnPort pr).running
          = (two_phase_outcome KILL_PROCESSES_ON_PORT_GRACE_SECONDS pr.termExit pr.killExit).2
      ∧ (terminate_process_registry pr).running
          = (two_phase_outcome TERMINATE_PROCESS_GRACE_SECONDS pr.termExit pr.killExit).2 := by
  intro te ke pr
  refine ⟨?_, ?_, ?_, ?_, ?_, rfl, rfl⟩
  · cases te with
    | none => simp [two_phase_outcome, KILL_PROCESSES_ON_PORT_GRACE_SECONDS]
    | some t =>
        simp only [two_phase_outcome, KILL_PROCESSES_ON_PORT_GRACE_SECONDS, Option.some.injEq]
        constructor
        · intro h
          by_cases ht : t ≤ 0
          · omega
          · rw [if_neg ht] at h; exact absurd h (by simp)
        · intro h; subst h; simp
  · cases te with
    | none => simp [two_phase_outcome, TERMINATE_PROCESS_GRACE_SECONDS]
    | some t =>
        simp only [two_phase_outcome, TERMINATE_PROCESS_GRACE_SECONDS]
        constructor
        · intro h
          by_cases ht : t ≤ 1
          · exact ⟨t, rfl, ht⟩
          · rw [if_neg ht] at h; exact absurd h (by simp)
        · rintro ⟨u, hu, hle⟩
          cases hu
          rw [if_pos hle]
  · cases te with
    | none => simp [two_phase_outcome, STOP_ALL_PROCESSES_GRACE_SECONDS]
    | some t =>
        simp only [two_phase_outcome, STOP_ALL_PROCESSES_GRACE_SECONDS]
        constructor
        · intro h
          by_cases ht : t ≤ 3
          · exact ⟨t, rfl, ht⟩
          · rw [if_neg ht] at h; exact absurd h (by simp)
        · rintro ⟨u, hu, hle⟩
          cases hu
          rw [if_pos hle]
  · intro g h
    cases te with
    | none => rfl
    | some t =>
        simp only [two_phase_outcome] at h ⊢
        by_cases ht : t ≤ g
        · rw [if_pos ht] at h; exact absurd h (by simp)
        · rw [if_neg ht]
  · intro g h
    cases te with
    | none => simp [two_phase_outcome] at h
    | some t =>
        simp only [two_phase_outcome] at h ⊢
        by_cases ht : t ≤ g
        · rw [if_pos ht]
        · rw [if_neg ht] at h; exact absurd h (by simp)

/-- Process used by witnesses: a well-behaved worker that exits promptly. -/
def promptProc : OSProc :=
  { pid := 9, name := "worker", cmdline := [], ports := [], running := true,
    accessDenied := false, termDenied := false, termExit := some 0, killExit := true }

/-- Witness for C2 (amended): a process that ignores the graceful signal is
force-killed by the registry helper's pattern. -/
theorem c2_witness :
    (two_phase_outcome TERMINATE_PROCESS_GRACE_SECONDS none true).2 = !true :=
  (c2_two_phase_with_divergent_grace none true promptProc).2.2.2.1
    TERMINATE_PROCESS_GRACE_SECONDS rfl

/-- Registry state used by the C1 counterexample: one live tracked process,
started at time 0, with the source's 20 second load bound. -/
def pmOneTracked : PMState :=
  { tracked := [{ pid := 101, name := "worker", cmdline := [], ports := [],
                  running := true, accessDenied := false, termDenied := false,
                  termExit := some 0, killExit := true }],
    spawnedTerminals := [], startTime := 0, maxLoadTime := 20 }

/-- C1 counterexample: at 21 seconds the load-timeout check does not merely
report the breach; it terminates the tracked process, so the registry state
after the call differs from the state before it.  This refutes the claim that
the check leaves the tracked processes and OS process state unchanged. -/
theorem c1_counterexample :
    (check_load_timeout pmOneTracked 21).1 = true
    ∧ (check_load_timeout pmOneTracked 21).2 ≠ pmOneTracked
    ∧ ((check_load_timeout pmOneTracked 21).2.tracked.map OSProc.running) = [false] := by
  decide

/-- C1 (amended): check_load_timeout returns exactly whether the elapsed time
since start exceeds the bound; below the bound it leaves the registry state
unchanged, but on a breach it first terminates every tracked and spawned
process via terminate_all_processes. -/
theorem c1_check_load_timeout_reports_and_kills :
    ∀ (st : PMState) (now : Nat),
      ((check_load_timeout st now).1 = decide (st.maxLoadTime < now - st.startTime))
      ∧ (now - st.startTime ≤ st.maxLoadTime → (check_load_timeout st now).2 = st)
      ∧ (st.maxLoadTime < now - st.startTime →
          (check_load_timeout st now).2 = (terminate_all_processes st).2) := by
  intro st now
  refine ⟨?_, ?_, ?_⟩
  · by_cases h : st.maxLoadTime < now - st.startTime
    · simp [check_load_timeout, h]
    · simp [check_load_timeout, h]
  · intro h
    have h2 : ¬ st.maxLoadTime < now - st.startTime := by omega
    simp [check_load_timeout, h2]
  · intro h
    simp [check_load_timeout, h]

/-- Witness for C1 (amended): the breached check at 21 seconds rewrites the
registry through terminate_all_processes. -/
theorem c1_witness :
    (check_load_timeout pmOneTracked 21).2 = (terminate_all_processes pmOneTracked).2 :=
  (c1_check_load_timeout_reports_and_kills pmOneTracked 21).2.2 (by decide)

/-- The search for an available port returns the world unchanged: its body
only probes, it never signals a process. -/
lemma find_available_port_world (w : World) (q : Option Nat) :
    (find_available_port w q).2 = w := by
  unfold find_available_port
  cases h1 : (ports_to_try (q.getD DEFAULT_PORT)).find? (is_port_available w) with
  | some p => simp [h1]
  | none =>
      cases h2 : (List.range' 8000 1000).find? (is_port_available w) with
      | some p => simp [h1, h2]
      | none => simp [h1, h2]

/-- The world after the eviction entry point is exactly the world after the
single kill pass on the target port: the fallback search mutates nothing. -/
lemma secureKnownPort_world (w : World) (p : Nat) :
    (secureKnownPort w p).2 = (kill_processes_on_port w p).2 := by
  unfold secureKnownPort
  by_cases hav : is_port_available (kill_processes_on_port w p).2 p
  · simp [hav]
  · simp [hav, find_available_port_world]

/-- C5: eviction is confined to the requested most-preferred port.  The world
after the privileged entry point equals the world after the one kill pass on
that port, and every PID newly appearing in the kill log belonged to a process
that occupied the target port beforehand; the fallback search over later
candidates terminates nothing. -/
theorem c5_eviction_only_on_target :
    ∀ (w : World) (p : Nat),
      (secure_port_for_render_farm w (some p)).2 = (kill_processes_on_port w p).2
      ∧ (∀ pid, pid ∈ (secure_port_for_render_farm w (some p)).2.killedLog →
          pid ∈ w.killedLog ∨ ∃ pr, pr ∈ w.procs ∧ pr.pid = pid ∧ occupies pr p = true) := by
  intro w p
  have h1 : (secure_port_for_render_farm w (some p)).2 = (kill_processes_on_port w p).2 :=
    secureKnownPort_world w p
  refine ⟨h1, ?_⟩
  intro pid hmem
  rw [h1] at hmem
  have hlog : (kill_processes_on_port w p).2.killedLog
      = w.killedLog ++ (w.procs.filter (shouldKill p)).map OSProc.pid := rfl
  rw [hlog] at hmem
  rcases List.mem_append.mp hmem with hl | hr
  · exact Or.inl hl
  · right
    rcases List.mem_map.mp hr with ⟨pr, hpr, hpid⟩
    rcases List.mem_filter.mp hpr with ⟨hprmem, hsk⟩
    refine ⟨pr, hprmem, hpid, ?_⟩
    unfold shouldKill at hsk
    simp only [Bool.and_eq_true] at hsk
    unfold occupies
    rw [hsk.1.1.1, hsk.2]
    rfl

/-- World used by the C5 witness: pid 7 occupies port 8080 and is killable. -/
def w5occupied : World :=
  { procs := [{ pid := 7, name := "svc", cmdline := [], ports := [8080],
                running := true, accessDenied := false, termDenied := false,
                termExit := some 0, killExit := true }],
    killedLog := [] }

/-- Witness for C5: the eviction pass on port 8080 logs pid 7, and that pid is
accounted for by a process that occupied the target port. -/
theorem c5_witness :
    7 ∈ (secure_port_for_render_farm w5occupied (some 8080)).2.killedLog
    ∧ (7 ∈ w5occupied.killedLog
        ∨ ∃ pr, pr ∈ w5occupied.procs ∧ pr.pid = 7 ∧ occupies pr 8080 = true) :=
  ⟨by decide, (c5_eviction_only_on_target w5occupied 8080).2 7 (by decide)⟩

/-- C6: on a port with no occupying process the privileged entry point secures
exactly that port and its kill log gains no PID (zero processes terminated). -/
theorem c6_secure_unoccupied_port_without_kill :
    ∀ (w : World) (p : Nat),
      (∀ pr ∈ w.procs, occupies pr p = false) →
      (secure_port_for_render_farm w (some p)).1 = Except.ok p
      ∧ (secure_port_for_render_farm w (some p)).2.killedLog = w.killedLog := by
  intro w p h
  have hsk : ∀ pr ∈ w.procs, shouldKill p pr = false := by
    intro pr hpr
    have hocc := h pr hpr
    unfold occupies at hocc
    unfold shouldKill
    cases hr : pr.running with
    | false => simp [hr]
    | true =>
        rw [hr] at hocc
        simp only [Bool.true_and] at hocc
        simp
        intro _ _
        simpa using hocc
  have hfilter : w.procs.filter (shouldKill p) = [] :=
    List.filter_eq_nil_iff.mpr (fun pr hpr => by simp [hsk pr hpr])
  have hmap : w.procs.map
      (fun pr => if shouldKill p pr then killProcOnPort pr else pr) = w.procs := by
    have hcongr := List.map_congr_left
      (fun pr hpr => by rw [hsk pr hpr]; exact if_neg (by simp) :
        ∀ pr ∈ w.procs,
          (if shouldKill p pr then killProcOnPort pr else pr) = id pr)
    rw [hcongr, List.map_id]
  have hkw : kill_processes_on_port w p = (0, w) := by
    unfold kill_processes_on_port
    simp only [hfilter, hmap, List.map_nil, List.length_nil, List.append_nil]
  have hav : is_port_available w p = true := by
    unfold is_port_available
    simp only [Bool.not_eq_true', List.any_eq_false]
    intro pr hpr
    simp [h pr hpr]
  have hgoal : secure_port_for_render_farm w (some p) = (Except.ok p, w) := by
    show secureKnownPort w p = (Except.ok p, w)
    unfold secureKnownPort
    rw [hkw]
    simp [hav]
  rw [hgoal]
  exact ⟨rfl, rfl⟩

/-- World used by the C6 witness: a single process occupies only port 9100,
leaving port 8080 free. -/
def w6free : World :=
  { procs := [{ pid := 3, name := "other", cmdline := [], ports := [9100],
                running := true, accessDenied := false, termDenied := false,
                termExit := some 0, killExit := true }],
    killedLog := [] }

/-- Witness for C6: securing the unoccupied port 8080 returns it and logs no
kill. -/
theorem c6_witness :
    (secure_port_for_render_farm w6free (some 8080)).1 = Except.ok 8080
    ∧ (secure_port_for_render_farm w6free (some 8080)).2.killedLog = w6free.killedLog :=
  c6_secure_unoccupied_port_without_kill w6free 8080 (by decide)

/-- The source's candidate construction coincides with the specification's
search order: requested port first (moved to the front of the preference list
when present, otherwise prepended), then the remaining preference entries in
their original order, then the ascending fallback range. -/
lemma searchOrder_eq_source (sp : Nat) :
    searchOrderSpec sp RENDERSYNC_PORTS 8000 1000
      = ports_to_try sp ++ List.range' 8000 1000 := by
  unfold searchOrderSpec ports_to_try
  by_cases h : RENDERSYNC_PORTS.contains sp
  · rw [if_pos h, if_pos h]
    have hnd : RENDERSYNC_PORTS.Nodup := by decide
    rw [hnd.erase_eq_filter]
  · rw [if_neg h, if_neg h]

/-- C4: the ordinary port search tries exactly the spec's candidate order and
returns the first candidate that probes available (error on exhaustion); the
fallback range is swept ascending; and the search leaves the process world
untouched, terminating nothing. -/
theorem c4_search_order_first_available_no_kill :
    ∀ (w : World) (sp : Nat),
      ((find_available_port w (some sp)).1 =
        match (searchOrderSpec sp RENDERSYNC_PORTS 8000 1000).find? (is_port_available w) with
        | some p => Except.ok p
        | none => Except.error "No available ports found in range 8000-8999")
      ∧ (find_available_port w (some sp)).2 = w
      ∧ List.Pairwise (fun a b => a < b) (List.range' 8000 1000) := by
  intro w sp
  refine ⟨?_, find_available_port_world w (some sp), List.pairwise_lt_range' 8000 1000⟩
  unfold find_available_port
  simp only [Option.getD_some]
  rw [searchOrder_eq_source, List.find?_append]
  cases h1 : (ports_to_try sp).find? (is_port_available w) with
  | some p => rfl
  | none =>
      cases h2 : (List.range' 8000 1000).find? (is_port_available w) with
      | some p => rfl
      | none => rfl

/-- Error strings produced by the batch stop scan: one per accessible matching
process whose terminate() raises permission-denied. -/
lemma stopScan_error_count (app : String) (procs : List OSProc) :
    (stopScan app procs).2.1.length =
      (procs.filter (fun pr =>
        !pr.accessDenied && nameMatches app pr && pr.running && pr.termDenied)).length := by
  induction procs with
  | nil => rfl
  | cons pr rest ih =>
      cases had : pr.accessDenied <;> cases hnm : nameMatches app pr <;>
        cases hr : pr.running <;> cases htd : pr.termDenied <;>
          simp [stopScan, had, hnm, hr, htd, ih]

/-- Stopped entries produced by the batch stop scan: one per accessible
matching process other than the running permission-denied ones. -/
lemma stopScan_stopped_count (app : String) (procs : List OSProc) :
    (stopScan app procs).1.length =
      (procs.filter (fun pr =>
        !pr.accessDenied && nameMatches app pr && !(pr.running && pr.termDenied))).length := by
  induction procs with
  | nil => rfl
  | cons pr rest ih =>
      cases had : pr.accessDenied <;> cases hnm : nameMatches app pr <;>
        cases hr : pr.running <;> cases htd : pr.termDenied <;>
          simp [stopScan, had, hnm, hr, htd, ih]

/-- Process table of the specification's scenario C: three ComfyUI matches, of
which exactly the second raises permission-denied on terminate. -/
def comfyThree : List OSProc :=
  [{ pid := 11, name := "ComfyUI.exe", cmdline := [], ports := [8188],
     running := true, accessDenied := false, termDenied := false,
     termExit := some 1, killExit := true },
   { pid := 12, name := "ComfyUI.exe", cmdline := [], ports := [],
     running := true, accessDenied := false, termDenied := true,
     termExit := some 1, killExit := true },
   { pid := 13, name := "python.exe", cmdline := ["python", "ComfyUI/main.py"], ports := [],
     running := true, accessDenied := false, termDenied := false,
     termExit := none, killExit := true }]

/-- C8: a permission-denied failure on one match is collected as a soft error
and does not abort the remaining matches: the error-list length counts exactly
the accessible matching processes whose terminate was denied, the stopped
count covers every other accessible match, and on the three-match scenario
with one denial the result reports two stopped processes and one error. -/
theorem c8_stop_collects_soft_errors :
    ∀ (app : String) (procs : List OSProc),
      ((stopScan app procs).2.1.length =
        (procs.filter (fun pr =>
          !pr.accessDenied && nameMatches app pr && pr.running && pr.termDenied)).length)
      ∧ ((stopScan app procs).1.length =
        (procs.filter (fun pr =>
          !pr.accessDenied && nameMatches app pr && !(pr.running && pr.termDenied))).length)
      ∧ (stop_all_comfyui_processes comfyThree).1.total_stopped = 2
      ∧ (stop_all_comfyui_processes comfyThree).1.errors.length = 1 := by
  intro app procs
  exact ⟨stopScan_error_count app procs, stopScan_stopped_count app procs,
    by decide, by decide⟩

/-- Every candidate the startup arbitration can try: the preferred list seeded
with the default port, followed by the fallback sweep. -/
def exhaustedPorts : List Nat :=
  ports_to_try DEFAULT_PORT ++ List.range' 8000 1000

/-- World in which a single unkillable process occupies every candidate port,
so the arbitration search is exhausted. -/
def exhaustedWorld : World :=
  { procs := [{ pid := 1, name := "squatter", cmdline := [], ports := exhaustedPorts,
                running := true, accessDenied := true, termDenied := true,
                termExit := none, killExit := false }],
    killedLog := [] }

/-- In the exhausted world no candidate port probes available. -/
lemma exhausted_unavailable : ∀ p ∈ exhaustedPorts,
    is_port_available exhaustedWorld p = false := by
  intro p hp
  unfold is_port_available exhaustedWorld
  simp only [List.any_cons, List.any_nil, Bool.or_false, occupies]
  simp [hp]

/-- The preferred-candidate pass finds nothing in the exhausted world. -/
lemma exhausted_find_preferred_none :
    (ports_to_try DEFAULT_PORT).find? (is_port_available exhaustedWorld) = none := by
  apply List.find?_eq_none.mpr
  intro x hx
  simp [exhausted_unavailable x (List.mem_append_left _ hx)]

/-- The fallback sweep finds nothing in the exhausted world. -/
lemma exhausted_find_fallback_none :
    (List.range' 8000 1000).find? (is_port_available exhaustedWorld) = none := by
  apply List.find?_eq_none.mpr
  intro x hx
  simp [exhausted_unavailable x (List.mem_append_right _ hx)]

/-- When both candidate passes fail, the search raises the no-port error and
returns the world unchanged. -/
lemma find_available_port_none_of (w : World)
    (h1 : (ports_to_try DEFAULT_PORT).find? (is_port_available w) = none)
    (h2 : (List.range' 8000 1000).find? (is_port_available w) = none) :
    find_available_port w none
      = (Except.error "No available ports found in range 8000-8999", w) := by
  unfold find_available_port
  simp only [Option.getD_none]
  rw [h1, h2]

/-- With no port argument, a failing search propagates its error out of the
arbitration entry point. -/
lemma secure_none_err_of (w : World) (e : String)
    (h : find_available_port w none = (Except.error e, w)) :
    secure_port_for_render_farm w none = (Except.error e, w) := by
  unfold secure_port_for_render_farm
  rw [h]

/-- When arbitration errors and the load timeout has not fired, startup
completes with the continued-with-default outcome. -/
lemma startup_error_continues (w : World) (pm : PMState) (now : Nat) (e : String)
    (he : (secure_port_for_render_farm w none).1 = Except.error e)
    (hct : (check_load_timeout pm now).1 = false) :
    (startup w pm now).1 = StartupOutcome.continuedWithDefault := by
  unfold startup
  dsimp only
  rw [he, hct]
  rfl

/-- When arbitration succeeds and the load timeout has not fired, startup
completes with the secured port. -/
lemma startup_ok_secured (w : World) (pm : PMState) (now : Nat) (p : Nat)
    (hp : (secure_port_for_render_farm w none).1 = Except.ok p)
    (hct : (check_load_timeout pm now).1 = false) :
    (startup w pm now).1 = StartupOutcome.securedAndReady p := by
  unfold startup
  dsimp only
  rw [hp, hct]
  rfl

/-- The search raises the no-port condition in the exhausted world. -/
lemma find_available_port_exhausted :
    find_available_port exhaustedWorld none
      = (Except.error "No available ports found in range 8000-8999", exhaustedWorld) :=
  find_available_port_none_of exhaustedWorld
    exhausted_find_preferred_none exhausted_find_fallback_none

/-- Startup arbitration propagates the no-port error in the exhausted world. -/
lemma secure_exhausted :
    secure_port_for_render_farm exhaustedWorld none
      = (Except.error "No available ports found in range 8000-8999", exhaustedWorld) :=
  secure_none_err_of exhaustedWorld "No available ports found in range 8000-8999"
    find_available_port_exhausted

/-- Registry state with nothing tracked and no timeout pending. -/
def pmIdle : PMState :=
  { tracked := [], spawnedTerminals := [], startTime := 0, maxLoadTime := 20 }

/-- C3 counterexample: with every candidate port occupied the arbitration
raises the no-port condition, yet startup catches it and completes normally,
continuing on the default port instead of failing hard.  This refutes the
claim that exhausting all candidate ports makes daemon startup fail. -/
theorem c3_counterexample :
    (secure_port_for_render_farm exhaustedWorld none).1
      = Except.error "No available ports found in range 8000-8999"
    ∧ (startup exhaustedWorld pmIdle 0).1 = StartupOutcome.continuedWithDefault := by
  constructor
  · rw [secure_exhausted]
  · exact startup_error_continues exhaustedWorld pmIdle 0
      "No available ports found in range 8000-8999"
      (by rw [secure_exhausted]) (by decide)

/-- C3 (amended): no condition in the arbitration path is fatal to startup.
The startup hook catches any arbitration failure, including port exhaustion,
and continues with the default port; on success it proceeds with the secured
port.  In both cases startup completes (barring the separate load-timeout
early return). -/
theorem c3_startup_never_fails_hard :
    ∀ (w : World) (pm : PMState) (now : Nat),
      (∀ e, (secure_port_for_render_farm w none).1 = Except.error e →
        (check_load_timeout pm now).1 = false →
        (startup w pm now).1 = StartupOutcome.continuedWithDefault)
      ∧ (∀ p, (secure_port_for_render_farm w none).1 = Except.ok p →
        (check_load_timeout pm now).1 = false →
        (startup w pm now).1 = StartupOutcome.securedAndReady p) := by
  intro w pm now
  exact ⟨fun e he hct => startup_error_continues w pm now e he hct,
    fun p hp hct => startup_ok_secured w pm now p hp hct⟩

/-- Witness for C3 (amended): startup in the exhausted world completes with
the continued-with-default outcome. -/
theorem c3_witness :
    (startup exhaustedWorld pmIdle 0).1 = StartupOutcome.continuedWithDefault :=
  (c3_startup_never_fails_hard exhaustedWorld pmIdle 0).1
    "No available ports found in range 8000-8999"
    (by rw [secure_exhausted]) (by decide)

end RenderSync
